import Mathlib

/-!
# paramodel — verification of the request-to-artifact pipeline

The repository generates customized STL mesh files from parametric FreeCAD
source documents: an HTTP request names a model and a mapping of numeric
parameters, the service validates the parameters against the document's
schema, mutates the in-memory parameter table, regenerates the geometry,
exports a mesh, renders a preview image with OpenSCAD, and returns the
artifacts, deleting all temporary files when the request finishes.

The Python pipeline module (`app.model_generator_service` and the CLI it
wraps) is not part of the available sources; only its callers (the
exploration notebook), the README, the Dockerfile and the launch script
`headless_service.sh` are.  The pipeline itself is therefore modelled from
the specification, definition by definition, and the claims are settled
against that model.  The launch script and Dockerfile are embedded from
their actual sources.
-/

namespace Paramodel

/-- Modelled from the spec: a parameter value supplied by the caller in the
request body.  The spec requires values to be numeric and rejects
non-numeric ones, so the value type distinguishes numbers from other JSON
scalars (modelled here by strings). -/
inductive Value where
  | num (n : Int)
  | str (s : String)
deriving DecidableEq, Repr

/-- Modelled from the spec (§3): a ParameterSpec extracted from a CAD
document — name, default value, optional min/max bounds. -/
structure ParameterSpec where
  name : String
  default_value : Int
  min : Option Int
  max : Option Int
deriving DecidableEq, Repr

/-- Modelled from the spec: a triangulated mesh, reduced to the structure
the claims mention — a list of vertices (integer coordinates) and a list of
triangular faces. -/
structure Mesh where
  vertices : List (Int × Int × Int)
  faces : List (Nat × Nat × Nat)
deriving DecidableEq, Repr

/-- Modelled from the spec: a CAD source document as seen through the
narrow interface of §9 — its parameter schema and its geometry recompute
function from a full parameter assignment to a mesh (`none` models a
`RecomputeError`, a jointly infeasible parameter combination). -/
structure SourceDocument where
  schema : List ParameterSpec
  recompute : List (String × Int) → Option Mesh

/-- Modelled from the spec (§3): a catalog entry, keyed by model name,
holding the source document it resolves to. -/
structure ModelCatalogEntry where
  name : String
  doc : SourceDocument

/-- Modelled from the spec (§3): the caller's request — a model name and a
mapping of parameter name to requested value. -/
structure ParameterRequest where
  model : String
  parameters : List (String × Value)

/-- Modelled from the spec (§7): the error taxonomy. -/
inductive PipelineError where
  | UnknownModelError (model : String)
  | SchemaError
  | UnknownParameterError (name : String)
  | InvalidParameterValueError (name : String) (value : Value) (reason : String)
  | RecomputeError (message : String)
  | ExportError
  | RenderError (reason : String)
  | InternalError
deriving DecidableEq, Repr

/-- Modelled from the spec (§4.6): the stage at which a pipeline run
failed. -/
inductive Stage where
  | Received
  | SchemaLoaded
  | Validated
  | Mutated
  | Regenerated
  | Exported
deriving DecidableEq, Repr

/-- Modelled from the spec (§3): the artifact paths returned on success;
the preview image is absent when the render step failed (§4.5). -/
structure GeneratedArtifact where
  mesh_file : String
  preview_image : Option String
  mesh : Mesh
deriving DecidableEq, Repr

/-- Modelled from the spec (§4.6): the packaged result of one request. -/
inductive Outcome where
  | Delivered (artifact : GeneratedArtifact) (warnings : List String)
  | Failed (stage : Stage) (error : PipelineError)
deriving DecidableEq, Repr

/-- Modelled from the spec: the observable side effects of one pipeline
run, recorded as an event trace — document opening, schema reading,
in-memory parameter mutation, regeneration, export, render, temporary file
creation and deletion, and recorded warnings. -/
inductive Event where
  | openDocument (model : String)
  | readSchema
  | mutateParameter (name : String) (value : Int)
  | regenerate
  | exportMesh (path : String)
  | renderPreview (meshPath : String) (imagePath : String)
  | createFile (path : String)
  | deleteFile (path : String)
  | warning (message : String)
deriving DecidableEq, Repr

/-- Look up a parameter spec by name in a schema. -/
def findSpec (schema : List ParameterSpec) (name : String) : Option ParameterSpec :=
  schema.find? (fun s => s.name == name)

/-- Look up the requested value for a parameter name. -/
def lookupValue (requested : List (String × Value)) (name : String) : Option Value :=
  (requested.find? (fun p => p.1 == name)).map (fun p => p.2)

/-- Modelled from the spec (§4.2): check one numeric value against the
bounds declared by its spec; returns a reason when the value is out of
bounds. -/
def checkBounds (s : ParameterSpec) (v : Int) : Option String :=
  match s.min with
  | some lo =>
    if v < lo then some "below declared minimum"
    else match s.max with
      | some hi => if hi < v then some "above declared maximum" else none
      | none => none
  | none =>
    match s.max with
    | some hi => if hi < v then some "above declared maximum" else none
    | none => none

/-- Modelled from the spec (§4.2, first check): every key in `requested`
must exist in `schema`; the first unknown name is reported. -/
def checkNames (schema : List ParameterSpec) :
    List (String × Value) → Option PipelineError
  | [] => none
  | (n, _) :: rest =>
    match findSpec schema n with
    | none => some (.UnknownParameterError n)
    | some _ => checkNames schema rest

/-- Modelled from the spec (§4.2, second check): every value must be
numeric and within the declared bounds of its (already known) parameter. -/
def checkValues (schema : List ParameterSpec) :
    List (String × Value) → Option PipelineError
  | [] => none
  | (n, v) :: rest =>
    match findSpec schema n with
    | none => checkValues schema rest
    | some s =>
      match v with
      | .str _ => some (.InvalidParameterValueError n v "value is not numeric")
      | .num x =>
        match checkBounds s x with
        | some reason => some (.InvalidParameterValueError n (.num x) reason)
        | none => checkValues schema rest

/-- Modelled from the spec (§4.2): full validation of a requested mapping
against a schema — the key-existence check of §4.2 runs over the whole
mapping before any value check. -/
def validateParams (schema : List ParameterSpec) (requested : List (String × Value)) :
    Option PipelineError :=
  match checkNames schema requested with
  | some e => some e
  | none => checkValues schema requested

/-- Modelled from the spec (§4.2): the parameter assignment after applying
the requested values over the document defaults — parameters absent from
`requested` retain their default value. -/
def applyParams (schema : List ParameterSpec) (requested : List (String × Value)) :
    List (String × Int) :=
  schema.map (fun s =>
    match lookupValue requested s.name with
    | some (.num n) => (s.name, n)
    | _ => (s.name, s.default_value))

/-- Modelled from the spec (§4.2): the in-memory mutation events emitted by
the applier, one write per requested parameter. -/
def mutationEvents (schema : List ParameterSpec) (requested : List (String × Value)) :
    List Event :=
  requested.filterMap (fun p =>
    match findSpec schema p.1, p.2 with
    | some _, .num n => some (.mutateParameter p.1 n)
    | _, _ => none)

/-- Modelled from the spec (§5): the private per-request temporary
directory; temporary files use per-request unique names. -/
def tmpDir (rid : String) : String := "/tmp/paramodel-" ++ rid ++ "/"

/-- Modelled from the spec: the exported mesh file path of one request. -/
def meshPath (rid : String) : String := tmpDir rid ++ "model.stl"

/-- Modelled from the spec: the preview image path of one request. -/
def imagePath (rid : String) : String := tmpDir rid ++ "preview.png"

/-- Modelled from the spec (§4.5, §7): the warning recorded when the render
step fails and is downgraded rather than aborting the pipeline. -/
def renderWarning : String := "render failed; mesh delivered without preview"

/-- Modelled from the spec (§4.6): the request orchestrator.  It resolves
the model name against the catalog, opens a fresh document, reads the
schema, validates, mutates, regenerates, exports, renders, and packages the
outcome, deleting every temporary file on every exit path.  `rid` is the
per-request unique identifier scoping temporary files; `render_ok` is the
outcome of the external render process (false models a non-zero exit or a
timeout).  Returns the outcome together with the event trace of the run. -/
def runPipeline (catalog : List ModelCatalogEntry) (req : ParameterRequest)
    (rid : String) (render_ok : Bool) : Outcome × List Event :=
  match catalog.find? (fun e => e.name == req.model) with
  | none => (.Failed .Received (.UnknownModelError req.model), [])
  | some entry =>
    match validateParams entry.doc.schema req.parameters with
    | some err =>
      (.Failed .SchemaLoaded err, [.openDocument req.model, .readSchema])
    | none =>
      match entry.doc.recompute (applyParams entry.doc.schema req.parameters) with
      | none =>
        (.Failed .Mutated (.RecomputeError "geometry recompute failed"),
         [.openDocument req.model, .readSchema] ++
           mutationEvents entry.doc.schema req.parameters ++ [.regenerate])
      | some mesh =>
        if mesh.vertices.isEmpty then
          (.Failed .Regenerated .ExportError,
           [.openDocument req.model, .readSchema] ++
             mutationEvents entry.doc.schema req.parameters ++ [.regenerate])
        else if render_ok then
          (.Delivered ⟨meshPath rid, some (imagePath rid), mesh⟩ [],
           [.openDocument req.model, .readSchema] ++
             mutationEvents entry.doc.schema req.parameters ++
             [.regenerate, .createFile (meshPath rid), .exportMesh (meshPath rid),
              .renderPreview (meshPath rid) (imagePath rid), .createFile (imagePath rid),
              .deleteFile (meshPath rid), .deleteFile (imagePath rid)])
        else
          (.Delivered ⟨meshPath rid, none, mesh⟩ [renderWarning],
           [.openDocument req.model, .readSchema] ++
             mutationEvents entry.doc.schema req.parameters ++
             [.regenerate, .createFile (meshPath rid), .exportMesh (meshPath rid),
              .renderPreview (meshPath rid) (imagePath rid), .warning renderWarning,
              .deleteFile (meshPath rid)])

/-- Fold step tracking the set of temporary files currently on disk. -/
def fileStep (live : List String) (e : Event) : List String :=
  match e with
  | .createFile p => live ++ [p]
  | .deleteFile p => live.erase p
  | _ => live

/-- The temporary files still on disk after an event trace, starting from
none. -/
def liveFiles (events : List Event) : List String := events.foldl fileStep []

/-- Modelled from the spec (§6): the filesystem as the pipeline sees it —
the read-only source document catalog (path and byte content) and the set
of temporary artifact files. -/
structure World where
  sourceDocs : List (String × List Nat)
  tempFiles : List String
deriving DecidableEq, Repr

/-- How one pipeline event acts on the filesystem: only file creation and
deletion touch disk; schema reads, in-memory parameter mutation,
regeneration, export bookkeeping and warnings do not reach the source
catalog. -/
def applyEvent (w : World) (e : Event) : World :=
  match e with
  | .createFile p => { w with tempFiles := w.tempFiles ++ [p] }
  | .deleteFile p => { w with tempFiles := w.tempFiles.erase p }
  | _ => w

/-- One request executed against a filesystem state. -/
def runRequest (catalog : List ModelCatalogEntry) (req : ParameterRequest)
    (rid : String) (render_ok : Bool) (w : World) : Outcome × World :=
  ((runPipeline catalog req rid render_ok).1,
   (runPipeline catalog req rid render_ok).2.foldl applyEvent w)

/-- Any number of requests, successful or failed, executed in sequence. -/
def runMany (catalog : List ModelCatalogEntry) :
    List (ParameterRequest × String × Bool) → World → World
  | [], w => w
  | t :: rest, w => runMany catalog rest (runRequest catalog t.1 t.2.1 t.2.2 w).2

/-- Number of mesh export events in a trace. -/
def exportCount (events : List Event) : Nat :=
  (events.filter (fun e => match e with | .exportMesh _ => true | _ => false)).length

/-- The x-coordinates of the mesh vertices lying at height `z`. -/
def xsAt (m : Mesh) (z : Int) : List Int :=
  (m.vertices.filter (fun v => v.2.2 == z)).map (fun v => v.1)

/-- The x-extent (max x minus min x) of the mesh vertices at height `z`. -/
def extentX (m : Mesh) (z : Int) : Int :=
  match xsAt m z with
  | [] => 0
  | x :: xs => xs.foldl max x - xs.foldl min x

/-- Value of a parameter in a full assignment, with a fallback default. -/
def assignLookup (a : List (String × Int)) (name : String) (dflt : Int) : Int :=
  match a.find? (fun p => p.1 == name) with
  | some p => p.2
  | none => dflt

/-- Modelled from the spec and the exploration notebook: the parameter
schema of the `pot-inner-basic` FreeCAD document — five numeric dimensions,
defaults taken from the notebook's annotated values, each bounded below by
0 (the spec's scenario assumes the declared bound `height >= 0`). -/
def potSchema : List ParameterSpec :=
  [ ⟨"height", 100, some 0, none⟩,
    ⟨"diameter_bottom", 80, some 0, none⟩,
    ⟨"diameter_top", 100, some 0, none⟩,
    ⟨"thickness_bottom", 4, some 0, none⟩,
    ⟨"thickness_side", 2, some 0, none⟩ ]

/-- Modelled from the spec: the regenerated pot geometry — a truncated
conical shell sampled at its extremal vertices: outer bottom ring of
diameter `db` at height 0, outer top ring of diameter `dt` at height `h`,
inner bottom ring (wall offset `ts`) at height `tb`, inner top ring at
height `h`. -/
def potMesh (h db dt tb ts : Int) : Mesh :=
  { vertices :=
      [ (-(db / 2), 0, 0), (db / 2, 0, 0),
        (0, -(db / 2), 0), (0, db / 2, 0),
        (-(dt / 2), 0, h), (dt / 2, 0, h),
        (0, -(dt / 2), h), (0, dt / 2, h),
        (-(db / 2 - ts), 0, tb), (db / 2 - ts, 0, tb),
        (-(dt / 2 - ts), 0, h), (dt / 2 - ts, 0, h) ],
    faces :=
      [ (0, 1, 5), (0, 5, 4), (2, 3, 7), (2, 7, 6),
        (8, 9, 11), (8, 11, 10), (0, 2, 1), (4, 6, 5) ] }

/-- Modelled from the spec: the recompute function of the pot document,
driven by the mutated parameter table. -/
def potRecompute (a : List (String × Int)) : Option Mesh :=
  some (potMesh (assignLookup a "height" 100) (assignLookup a "diameter_bottom" 80)
    (assignLookup a "diameter_top" 100) (assignLookup a "thickness_bottom" 4)
    (assignLookup a "thickness_side" 2))

/-- Modelled from the spec: the catalog entry for `pot-inner-basic`. -/
def potInnerBasic : ModelCatalogEntry :=
  ⟨"pot-inner-basic", ⟨potSchema, potRecompute⟩⟩

/-- Modelled from the spec (§6): the model catalog populated at startup
from the assets directory; `pot-inner-basic` is the model exercised by the
notebook's API test. -/
def theCatalog : List ModelCatalogEntry := [potInnerBasic]

/-- The notebook's API test request for `pot-inner-basic`. -/
def potRequest : ParameterRequest :=
  ⟨"pot-inner-basic",
   [("height", .num 60), ("diameter_bottom", .num 80), ("diameter_top", .num 100),
    ("thickness_bottom", .num 4), ("thickness_side", .num 2)]⟩

/-! ## The launch script and container entrypoint (from the sources) -/

/-- From `src/headless_service.sh`: the kinds of commands the launch script
runs. -/
inductive ShellCmd where
  | startXvfb (display : String) (screen : String)
  | exportEnv (name : String) (value : String)
  | runPython (module : String)
deriving DecidableEq, Repr

/-- From `src/headless_service.sh`: the script's commands in order — start
the virtual framebuffer server on display `:5`, export `DISPLAY=:5`, then
run the Python service module. -/
def headless_service : List ShellCmd :=
  [ .startXvfb ":5" "0 800x600x24",
    .exportEnv "DISPLAY" ":5",
    .runPython "app.model_generator_service" ]

/-- From `src/Dockerfile` line 56: the container start command. -/
def dockerfileCMD : List String := ["bash", "headless_service.sh"]

/-- State of the launch sequence: the displays served by started Xvfb
instances, the exported environment, and — once the service process has
been started — the environment and running displays it started under. -/
structure LaunchState where
  xvfbDisplays : List String
  env : List (String × String)
  serviceStart : Option (List (String × String) × List String)
deriving DecidableEq, Repr

/-- Execute one launch-script command. -/
def execCmd (s : LaunchState) : ShellCmd → LaunchState
  | .startXvfb d _ => { s with xvfbDisplays := s.xvfbDisplays ++ [d] }
  | .exportEnv n v => { s with env := (n, v) :: s.env }
  | .runPython _ => { s with serviceStart := some (s.env, s.xvfbDisplays) }

/-- The state after running a launch script from a clean start (no X
server running, no `DISPLAY` exported — the situation the script's own
comment documents as producing the OpenSCAD failure). -/
def launchScript (cmds : List ShellCmd) : LaunchState :=
  cmds.foldl execCmd ⟨[], [], none⟩

/-- Environment variable lookup. -/
def envLookup (env : List (String × String)) (n : String) : Option String :=
  (env.find? (fun p => p.1 == n)).map (fun p => p.2)

/-- Modelled from the spec and the comment block of
`src/headless_service.sh`: the renderer's no-X-server failure branch
(OpenSCAD exiting with code -11, "Unable to open a connection to the X
server", `DISPLAY=` empty) is taken exactly when `DISPLAY` is unset or
names no running X display. -/
def noXServerBranch (env : List (String × String)) (displays : List String) : Bool :=
  match envLookup env "DISPLAY" with
  | none => true
  | some d => !(displays.contains d)

/-! ## Derived predicates -/

/-- A parameter mapping whose value is non-numeric or out of bounds for its
(schema-declared) parameter. -/
def badValue (schema : List ParameterSpec) (p : String × Value) : Bool :=
  match findSpec schema p.1 with
  | none => false
  | some s =>
    match p.2 with
    | .str _ => true
    | .num x => (checkBounds s x).isSome

/-- A valid request entry: its name exists in the schema and its value is
numeric and within the declared bounds. -/
def validEntry (schema : List ParameterSpec) (p : String × Value) : Bool :=
  match findSpec schema p.1 with
  | none => false
  | some s =>
    match p.2 with
    | .str _ => false
    | .num x => (checkBounds s x).isNone

/-- The document's default parameter assignment. -/
def defaultAssignment (schema : List ParameterSpec) : List (String × Int) :=
  schema.map (fun s => (s.name, s.default_value))

/-! ## Helper lemmas -/

theorem checkNames_eq_none (schema : List ParameterSpec)
    (requested : List (String × Value))
    (h : ∀ p ∈ requested, (findSpec schema p.1).isSome) :
    checkNames schema requested = none := by
  induction requested with
  | nil => rfl
  | cons p rest ih =>
    obtain ⟨n, v⟩ := p
    have hp := h (n, v) (List.mem_cons_self _ _)
    rcases hSp : findSpec schema n with _ | s
    · rw [hSp] at hp
      simp at hp
    · simp only [checkNames, hSp]
      exact ih (fun q hq => h q (List.mem_cons_of_mem _ hq))

theorem checkNames_eq_some_of_unknown (schema : List ParameterSpec)
    (requested : List (String × Value)) (n : String) (v : Value)
    (hmem : (n, v) ∈ requested) (hunk : findSpec schema n = none) :
    ∃ m, findSpec schema m = none ∧
      checkNames schema requested = some (.UnknownParameterError m) := by
  induction requested with
  | nil => cases hmem
  | cons q rest ih =>
    obtain ⟨a, b⟩ := q
    rcases hSp : findSpec schema a with _ | s
    · exact ⟨a, hSp, by simp only [checkNames, hSp]⟩
    · rcases List.mem_cons.mp hmem with heq | hmem2
      · injection heq with h1 h2
        subst h1
        rw [hunk] at hSp
        cases hSp
      · obtain ⟨m, hm, hck⟩ := ih hmem2
        exact ⟨m, hm, by simp only [checkNames, hSp]; exact hck⟩

theorem checkNames_shape (schema : List ParameterSpec)
    (requested : List (String × Value)) (e : PipelineError)
    (h : checkNames schema requested = some e) :
    ∃ m, e = .UnknownParameterError m := by
  induction requested with
  | nil => cases h
  | cons q rest ih =>
    obtain ⟨a, b⟩ := q
    rcases hSp : findSpec schema a with _ | s
    · simp only [checkNames, hSp] at h
      exact ⟨a, (Option.some.injEq _ _ ▸ h).symm⟩
    · simp only [checkNames, hSp] at h
      exact ih h

theorem checkValues_eq_none (schema : List ParameterSpec)
    (requested : List (String × Value))
    (h : ∀ p ∈ requested, ∀ s, findSpec schema p.1 = some s →
        ∃ x, p.2 = Value.num x ∧ checkBounds s x = none) :
    checkValues schema requested = none := by
  induction requested with
  | nil => rfl
  | cons q rest ih =>
    obtain ⟨a, b⟩ := q
    have htail := fun p hp => h p (List.mem_cons_of_mem _ hp)
    rcases hSp : findSpec schema a with _ | s
    · simp only [checkValues, hSp]
      exact ih htail
    · obtain ⟨x, hx, hb⟩ := h (a, b) (List.mem_cons_self _ _) s hSp
      simp only at hx
      subst hx
      simp only [checkValues, hSp, hb]
      exact ih htail

theorem checkValues_eq_some_of_bad (schema : List ParameterSpec)
    (requested : List (String × Value)) (p : String × Value)
    (hmem : p ∈ requested) (hbad : badValue schema p = true) :
    ∃ n v r, checkValues schema requested =
      some (.InvalidParameterValueError n v r) := by
  induction requested with
  | nil => cases hmem
  | cons q rest ih =>
    obtain ⟨a, b⟩ := q
    have hcase : p = (a, b) ∨ p ∈ rest := List.mem_cons.mp hmem
    rcases hSp : findSpec schema a with _ | s
    · simp only [checkValues, hSp]
      rcases hcase with rfl | hmem2
      · rw [badValue, hSp] at hbad
        cases hbad
      · exact ih hmem2
    · cases b with
      | str st =>
        exact ⟨a, .str st, "value is not numeric", by simp only [checkValues, hSp]⟩
      | num x =>
        rcases hB : checkBounds s x with _ | r
        · simp only [checkValues, hSp, hB]
          rcases hcase with rfl | hmem2
          · simp [badValue, hSp, hB] at hbad
          · exact ih hmem2
        · exact ⟨a, .num x, r, by simp only [checkValues, hSp, hB]⟩

theorem checkValues_shape (schema : List ParameterSpec)
    (requested : List (String × Value)) (e : PipelineError)
    (h : checkValues schema requested = some e) :
    ∃ n v r, e = .InvalidParameterValueError n v r := by
  induction requested with
  | nil => cases h
  | cons q rest ih =>
    obtain ⟨a, b⟩ := q
    rcases hSp : findSpec schema a with _ | s
    · simp only [checkValues, hSp] at h
      exact ih h
    · cases b with
      | str st =>
        simp only [checkValues, hSp] at h
        exact ⟨a, .str st, "value is not numeric", (Option.some.injEq _ _ ▸ h).symm⟩
      | num x =>
        rcases hB : checkBounds s x with _ | r
        · simp only [checkValues, hSp, hB] at h
          exact ih h
        · simp only [checkValues, hSp, hB] at h
          exact ⟨a, .num x, r, (Option.some.injEq _ _ ▸ h).symm⟩

theorem validateParams_eq_none (schema : List ParameterSpec)
    (requested : List (String × Value))
    (h1 : ∀ p ∈ requested, (findSpec schema p.1).isSome)
    (h2 : ∀ p ∈ requested, ∀ s, findSpec schema p.1 = some s →
        ∃ x, p.2 = Value.num x ∧ checkBounds s x = none) :
    validateParams schema requested = none := by
  rw [validateParams, checkNames_eq_none schema requested h1]
  exact checkValues_eq_none schema requested h2

theorem validateParams_shape (schema : List ParameterSpec)
    (requested : List (String × Value)) (e : PipelineError)
    (h : validateParams schema requested = some e) :
    (∃ m, e = .UnknownParameterError m) ∨
      (∃ n v r, e = .InvalidParameterValueError n v r) := by
  rw [validateParams] at h
  rcases hN : checkNames schema requested with _ | e1
  · rw [hN] at h
    exact Or.inr (checkValues_shape schema requested e h)
  · rw [hN] at h
    obtain rfl : e1 = e := by injection h
    exact Or.inl (checkNames_shape schema requested e1 hN)

theorem mutationEvents_shape (schema : List ParameterSpec)
    (requested : List (String × Value)) (e : Event)
    (h : e ∈ mutationEvents schema requested) :
    ∃ n x, e = .mutateParameter n x := by
  rw [mutationEvents, List.mem_filterMap] at h
  obtain ⟨p, _, hf⟩ := h
  rcases hSp : findSpec schema p.1 with _ | s <;>
    rcases hv : p.2 with n | s2 <;> rw [hSp, hv] at hf <;> simp only at hf
  · cases hf
  · cases hf
  · exact ⟨p.1, n, ((Option.some.injEq _ _).mp hf).symm⟩
  · cases hf

theorem foldl_fileStep_of_mutations (es : List Event) (live : List String)
    (h : ∀ e ∈ es, ∃ n x, e = Event.mutateParameter n x) :
    es.foldl fileStep live = live := by
  induction es generalizing live with
  | nil => rfl
  | cons e rest ih =>
    obtain ⟨n, x, rfl⟩ := h e (List.mem_cons_self _ _)
    exact ih live (fun q hq => h q (List.mem_cons_of_mem _ hq))

theorem applyEvent_sourceDocs (w : World) (e : Event) :
    (applyEvent w e).sourceDocs = w.sourceDocs := by
  cases e <;> rfl

theorem foldl_applyEvent_sourceDocs (es : List Event) (w : World) :
    (es.foldl applyEvent w).sourceDocs = w.sourceDocs := by
  induction es generalizing w with
  | nil => rfl
  | cons e rest ih => rw [List.foldl_cons, ih, applyEvent_sourceDocs]

theorem foldl_fileStep_mutationEvents (schema : List ParameterSpec)
    (requested : List (String × Value)) (live : List String) :
    (mutationEvents schema requested).foldl fileStep live = live :=
  foldl_fileStep_of_mutations _ live
    (fun e he => mutationEvents_shape schema requested e he)

theorem validEntry_isSome (schema : List ParameterSpec) (p : String × Value)
    (h : validEntry schema p = true) : (findSpec schema p.1).isSome := by
  rw [validEntry] at h
  rcases hSp : findSpec schema p.1 with _ | s
  · rw [hSp] at h
    cases h
  · rfl

theorem validEntry_value (schema : List ParameterSpec) (p : String × Value)
    (h : validEntry schema p = true) (s : ParameterSpec)
    (hs : findSpec schema p.1 = some s) :
    ∃ x, p.2 = Value.num x ∧ checkBounds s x = none := by
  rcases hv : p.2 with x | st
  · refine ⟨x, rfl, ?_⟩
    rcases hB : checkBounds s x with _ | r
    · rfl
    · simp [validEntry, hs, hv, hB] at h
  · simp [validEntry, hs, hv] at h

theorem validateParams_eq_none_of_valid (schema : List ParameterSpec)
    (requested : List (String × Value))
    (h : ∀ p ∈ requested, validEntry schema p = true) :
    validateParams schema requested = none :=
  validateParams_eq_none schema requested
    (fun p hp => validEntry_isSome schema p (h p hp))
    (fun p hp s hs => validEntry_value schema p (h p hp) s hs)

theorem applyParams_nil (schema : List ParameterSpec) :
    applyParams schema [] = defaultAssignment schema := by
  simp [applyParams, defaultAssignment, lookupValue]

theorem delivered_shape (catalog : List ModelCatalogEntry) (req : ParameterRequest)
    (rid : String) (rok : Bool) (a : GeneratedArtifact) (w : List String)
    (h : (runPipeline catalog req rid rok).1 = .Delivered a w) :
    ∃ entry mesh, catalog.find? (fun e => e.name == req.model) = some entry ∧
      validateParams entry.doc.schema req.parameters = none ∧
      entry.doc.recompute (applyParams entry.doc.schema req.parameters) = some mesh ∧
      mesh.vertices.isEmpty = false ∧ a.mesh = mesh := by
  rcases hf : catalog.find? (fun e => e.name == req.model) with _ | entry
  · simp [runPipeline, hf] at h
  · rcases hv : validateParams entry.doc.schema req.parameters with _ | err
    · rcases hr : entry.doc.recompute (applyParams entry.doc.schema req.parameters)
        with _ | mesh
      · simp [runPipeline, hf, hv, hr] at h
      · rcases hE : mesh.vertices.isEmpty with _ | _
        · cases rok <;> simp [runPipeline, hf, hv, hr, hE] at h <;>
            exact ⟨entry, mesh, hf, hv, hr, hE, by rw [← h.1]⟩
        · simp [runPipeline, hf, hv, hr, hE] at h
    · simp [runPipeline, hf, hv] at h

theorem failed_not_render (catalog : List ModelCatalogEntry) (req : ParameterRequest)
    (rid : String) (rok : Bool) (st : Stage) (e : PipelineError)
    (h : (runPipeline catalog req rid rok).1 = .Failed st e) :
    ∀ s, e ≠ .RenderError s := by
  rcases hf : catalog.find? (fun e => e.name == req.model) with _ | entry
  · simp [runPipeline, hf] at h
    exact fun s hc => PipelineError.noConfusion (hc ▸ h.2)
  · rcases hv : validateParams entry.doc.schema req.parameters with _ | err
    · rcases hr : entry.doc.recompute (applyParams entry.doc.schema req.parameters)
        with _ | mesh
      · simp [runPipeline, hf, hv, hr] at h
        exact fun s hc => PipelineError.noConfusion (hc ▸ h.2)
      · rcases hE : mesh.vertices.isEmpty with _ | _
        · cases rok <;> simp [runPipeline, hf, hv, hr, hE] at h
        · simp [runPipeline, hf, hv, hr, hE] at h
          exact fun s hc => PipelineError.noConfusion (hc ▸ h.2)
    · simp [runPipeline, hf, hv] at h
      obtain rfl : err = e := h.2
      rcases validateParams_shape entry.doc.schema req.parameters err hv with
        ⟨m, rfl⟩ | ⟨n, v, r, rfl⟩ <;> exact fun s hc => PipelineError.noConfusion hc

theorem pot_valid_delivers (req : ParameterRequest) (rid : String) (rok : Bool)
    (hname : (potInnerBasic.name == req.model) = true)
    (hv : validateParams potSchema req.parameters = none) :
    ∃ a w, (runPipeline theCatalog req rid rok).1 = .Delivered a w ∧
      a.mesh.vertices ≠ [] := by
  have hfind : theCatalog.find? (fun e => e.name == req.model) = some potInnerBasic := by
    simp [theCatalog, List.find?, hname]
  rcases hm0 : potRecompute (applyParams potSchema req.parameters) with _ | mesh
  · have hm1 := hm0
    rw [potRecompute] at hm1
    exact Option.noConfusion hm1
  · have hm1 := hm0
    rw [potRecompute] at hm1
    injection hm1 with hmesh
    have hne : mesh.vertices.isEmpty = false := by rw [← hmesh]; rfl
    have hnil : mesh.vertices ≠ [] := by rw [← hmesh]; simp [potMesh]
    cases rok
    · exact ⟨⟨meshPath rid, none, mesh⟩, [renderWarning],
        by simp [runPipeline, hfind, potInnerBasic, hv, hm0, hne], hnil⟩
    · exact ⟨⟨meshPath rid, some (imagePath rid), mesh⟩, [],
        by simp [runPipeline, hfind, potInnerBasic, hv, hm0, hne], hnil⟩

/-! ## Claims -/

/-- Claim C1: for every valid request against the catalog — every parameter
name exists in the resolved model's schema and every value is numeric and
within its declared bounds — the pipeline delivers a non-empty mesh; in
particular, `pot-inner-basic` with height 60, diameter_bottom 80,
diameter_top 100, thickness_bottom 4, thickness_side 2 yields exactly one
mesh export whose vertex extents are 80 across the bottom ring, 100 across
the top ring, 80 − 2·2 across the inner bottom ring (wall thickness 2 per
side), with the inner bottom ring sitting at height 4 (bottom
thickness). -/
theorem c1_valid_requests_deliver :
    (∀ (req : ParameterRequest) (rid : String) (rok : Bool)
       (entry : ModelCatalogEntry),
       theCatalog.find? (fun e => e.name == req.model) = some entry →
       (∀ p ∈ req.parameters, validEntry entry.doc.schema p = true) →
       ∃ a w, (runPipeline theCatalog req rid rok).1 = .Delivered a w ∧
         a.mesh.vertices ≠ []) ∧
    ((runPipeline theCatalog potRequest "r1" true).1 =
       .Delivered ⟨meshPath "r1", some (imagePath "r1"), potMesh 60 80 100 4 2⟩ [] ∧
     exportCount (runPipeline theCatalog potRequest "r1" true).2 = 1 ∧
     extentX (potMesh 60 80 100 4 2) 0 = 80 ∧
     extentX (potMesh 60 80 100 4 2) 60 = 100 ∧
     extentX (potMesh 60 80 100 4 2) 4 = 80 - 2 * 2 ∧
     ((38 : Int), (0 : Int), (4 : Int)) ∈ (potMesh 60 80 100 4 2).vertices) := by
  constructor
  · intro req rid rok entry hfind hvalid
    rcases hb : (potInnerBasic.name == req.model) with _ | _
    · simp [theCatalog, List.find?, hb] at hfind
    · have hentry : potInnerBasic = entry := by
        simpa [theCatalog, List.find?, hb] using hfind
      subst hentry
      exact pot_valid_delivers req rid rok hb
        (validateParams_eq_none_of_valid _ _ hvalid)
  · exact ⟨rfl, rfl, by decide, by decide, by decide, by decide⟩

/-- Claim C1 witness: the valid-request theorem applied to the notebook's
request with the render process failing — the mesh is still delivered and
non-empty. -/
theorem c1_valid_requests_deliver_witness :
    ∃ a w, (runPipeline theCatalog potRequest "w1" false).1 = .Delivered a w ∧
      a.mesh.vertices ≠ [] :=
  c1_valid_requests_deliver.1 potRequest "w1" false potInnerBasic rfl (by decide)

/-- Claim C2: on every exit path of every request, all temporary files
created by the run have been deleted by the time the request finishes (the
live-file set of the event trace is empty), and every file created lives
under the request's private temporary directory. -/
theorem c2_no_artifact_outlives (catalog : List ModelCatalogEntry)
    (req : ParameterRequest) (rid : String) (rok : Bool) :
    liveFiles (runPipeline catalog req rid rok).2 = [] ∧
    (∀ p, Event.createFile p ∈ (runPipeline catalog req rid rok).2 →
       ∃ s, p = tmpDir rid ++ s) := by
  rcases hf : catalog.find? (fun e => e.name == req.model) with _ | entry
  · constructor
    · simp [runPipeline, hf, liveFiles]
    · intro p hp
      simp [runPipeline, hf] at hp
  · rcases hv : validateParams entry.doc.schema req.parameters with _ | err
    · rcases hr : entry.doc.recompute (applyParams entry.doc.schema req.parameters)
        with _ | mesh
      · constructor
        · simp [runPipeline, hf, hv, hr, liveFiles, List.foldl_append,
            foldl_fileStep_mutationEvents, fileStep]
        · intro p hp
          simp [runPipeline, hf, hv, hr] at hp
          obtain ⟨n, x, hx⟩ := mutationEvents_shape _ _ _ hp
          simp at hx
      · rcases hE : mesh.vertices.isEmpty with _ | _
        · cases rok
          · constructor
            · simp [runPipeline, hf, hv, hr, hE, liveFiles, List.foldl_append,
                foldl_fileStep_mutationEvents, fileStep, List.erase_cons_head]
            · intro p hp
              simp [runPipeline, hf, hv, hr, hE] at hp
              rcases hp with hp | rfl
              · obtain ⟨n, x, hx⟩ := mutationEvents_shape _ _ _ hp
                simp at hx
              · exact ⟨"model.stl", rfl⟩
          · constructor
            · simp [runPipeline, hf, hv, hr, hE, liveFiles, List.foldl_append,
                foldl_fileStep_mutationEvents, fileStep, List.erase_cons_head]
            · intro p hp
              simp [runPipeline, hf, hv, hr, hE] at hp
              rcases hp with hp | rfl | rfl
              · obtain ⟨n, x, hx⟩ := mutationEvents_shape _ _ _ hp
                simp at hx
              · exact ⟨"model.stl", rfl⟩
              · exact ⟨"preview.png", rfl⟩
        · constructor
          · simp [runPipeline, hf, hv, hr, hE, liveFiles, List.foldl_append,
              foldl_fileStep_mutationEvents, fileStep]
          · intro p hp
            simp [runPipeline, hf, hv, hr, hE] at hp
            obtain ⟨n, x, hx⟩ := mutationEvents_shape _ _ _ hp
            simp at hx
    · constructor
      · simp [runPipeline, hf, hv, liveFiles, fileStep]
      · intro p hp
        simp [runPipeline, hf, hv] at hp

/-- Claim C2 witness: a successful run of the notebook's request leaves no
live temporary file. -/
theorem c2_no_artifact_outlives_witness :
    liveFiles (runPipeline theCatalog potRequest "w2" true).2 = [] :=
  (c2_no_artifact_outlives theCatalog potRequest "w2" true).1

/-- Claim C3: a request whose parameters contain at least one name absent
from the resolved model's schema fails with UnknownParameterError for some
unknown name, and its trace stops at the schema read: no parameter
mutation, no mesh export, and no render occur, even if every other name in
the mapping is valid. -/
theorem c3_unknown_parameter_aborts (catalog : List ModelCatalogEntry)
    (req : ParameterRequest) (rid : String) (rok : Bool)
    (entry : ModelCatalogEntry) (n : String) (v : Value)
    (hfind : catalog.find? (fun e => e.name == req.model) = some entry)
    (hmem : (n, v) ∈ req.parameters)
    (hunk : findSpec entry.doc.schema n = none) :
    (∃ m, findSpec entry.doc.schema m = none ∧
       (runPipeline catalog req rid rok).1 =
         .Failed .SchemaLoaded (.UnknownParameterError m)) ∧
    (runPipeline catalog req rid rok).2 =
      [.openDocument req.model, .readSchema] ∧
    (∀ x y, Event.mutateParameter x y ∉ (runPipeline catalog req rid rok).2) ∧
    (∀ p, Event.exportMesh p ∉ (runPipeline catalog req rid rok).2) ∧
    (∀ p q, Event.renderPreview p q ∉ (runPipeline catalog req rid rok).2) := by
  obtain ⟨m, hm, hck⟩ :=
    checkNames_eq_some_of_unknown entry.doc.schema req.parameters n v hmem hunk
  have hvp : validateParams entry.doc.schema req.parameters =
      some (.UnknownParameterError m) := by
    rw [validateParams, hck]
  refine ⟨⟨m, hm, ?_⟩, ?_, ?_, ?_, ?_⟩ <;> simp [runPipeline, hfind, hvp]

/-- Claim C3 witness: a request with the unknown name `bogus` stops after
the schema read. -/
theorem c3_unknown_parameter_aborts_witness :
    (runPipeline theCatalog ⟨"pot-inner-basic", [("bogus", Value.num 1)]⟩
        "r3" true).2 = [.openDocument "pot-inner-basic", .readSchema] :=
  (c3_unknown_parameter_aborts theCatalog
    ⟨"pot-inner-basic", [("bogus", Value.num 1)]⟩ "r3" true potInnerBasic
    "bogus" (Value.num 1) rfl (by decide) (by decide)).2.1

/-- Claim C4 counterexample: a request containing both an unknown parameter
name and a value out of its declared bounds (`height = -5` against the
declared bound `height >= 0`) fails with UnknownParameterError, not
InvalidParameterValueError — the key-existence check of §4.2 runs over the
whole mapping before any value check, so the claim as stated fails on such
a request. -/
theorem c4_counterexample :
    (("height", Value.num (-5)) ∈
      [("bogus", Value.num 1), ("height", Value.num (-5))]) ∧
    findSpec potSchema "height" = some ⟨"height", 100, some 0, none⟩ ∧
    checkBounds ⟨"height", 100, some 0, none⟩ (-5) = some "below declared minimum" ∧
    (runPipeline theCatalog
        ⟨"pot-inner-basic", [("bogus", Value.num 1), ("height", Value.num (-5))]⟩
        "r4" true).1 =
      .Failed .SchemaLoaded (.UnknownParameterError "bogus") := by
  refine ⟨by decide, by decide, by decide, ?_⟩
  rfl

/-- Claim C4 (amended): provided every requested name exists in the schema,
a request containing a non-numeric or out-of-bounds value fails with
InvalidParameterValueError before regeneration is attempted — the trace
stops at the schema read, contains no regeneration and creates no file, so
no mesh is produced. -/
theorem c4_invalid_value_aborts (catalog : List ModelCatalogEntry)
    (req : ParameterRequest) (rid : String) (rok : Bool)
    (entry : ModelCatalogEntry) (p : String × Value)
    (hfind : catalog.find? (fun e => e.name == req.model) = some entry)
    (hnames : ∀ q ∈ req.parameters, (findSpec entry.doc.schema q.1).isSome)
    (hmem : p ∈ req.parameters) (hbad : badValue entry.doc.schema p = true) :
    (∃ n v r, (runPipeline catalog req rid rok).1 =
       .Failed .SchemaLoaded (.InvalidParameterValueError n v r)) ∧
    (runPipeline catalog req rid rok).2 =
      [.openDocument req.model, .readSchema] ∧
    Event.regenerate ∉ (runPipeline catalog req rid rok).2 ∧
    (∀ q, Event.createFile q ∉ (runPipeline catalog req rid rok).2) := by
  obtain ⟨n, v, r, hcv⟩ :=
    checkValues_eq_some_of_bad entry.doc.schema req.parameters p hmem hbad
  have hvp : validateParams entry.doc.schema req.parameters =
      some (.InvalidParameterValueError n v r) := by
    rw [validateParams, checkNames_eq_none entry.doc.schema req.parameters hnames, hcv]
  refine ⟨⟨n, v, r, ?_⟩, ?_, ?_, ?_⟩ <;> simp [runPipeline, hfind, hvp]

/-- Claim C4 witness: the spec's scenario `height = -5` is a bad value for
the schema and the run stops after the schema read. -/
theorem c4_invalid_value_aborts_witness :
    badValue potSchema ("height", Value.num (-5)) = true ∧
    (runPipeline theCatalog ⟨"pot-inner-basic", [("height", Value.num (-5))]⟩
        "r4a" true).2 = [.openDocument "pot-inner-basic", .readSchema] :=
  ⟨by decide,
   (c4_invalid_value_aborts theCatalog
      ⟨"pot-inner-basic", [("height", Value.num (-5))]⟩ "r4a" true potInnerBasic
      ("height", Value.num (-5)) rfl (by decide) (by decide) (by decide)).2.1⟩

/-- Claim C5: when the external render process fails, the pipeline still
delivers the mesh — the artifact has no preview image and the render
warning is recorded — and no failed outcome of any run ever carries a
RenderError: render failure is the only non-fatal error kind. -/
theorem c5_render_failure_downgraded (catalog : List ModelCatalogEntry)
    (req : ParameterRequest) (rid : String) (entry : ModelCatalogEntry) (mesh : Mesh)
    (hfind : catalog.find? (fun e => e.name == req.model) = some entry)
    (hv : validateParams entry.doc.schema req.parameters = none)
    (hr : entry.doc.recompute (applyParams entry.doc.schema req.parameters) = some mesh)
    (hne : mesh.vertices.isEmpty = false) :
    (runPipeline catalog req rid false).1 =
      .Delivered ⟨meshPath rid, none, mesh⟩ [renderWarning] ∧
    (∀ c r i ok st e, (runPipeline c r i ok).1 = .Failed st e →
      ∀ s, e ≠ .RenderError s) := by
  constructor
  · simp [runPipeline, hfind, hv, hr, hne]
  · exact fun c r i ok st e h s => failed_not_render c r i ok st e h s

/-- Claim C5 witness: the notebook's request with a failing render still
delivers the mesh, without a preview and with the warning recorded. -/
theorem c5_render_failure_downgraded_witness :
    (runPipeline theCatalog potRequest "r5" false).1 =
      .Delivered ⟨meshPath "r5", none, potMesh 60 80 100 4 2⟩ [renderWarning] :=
  (c5_render_failure_downgraded theCatalog potRequest "r5" potInnerBasic
    (potMesh 60 80 100 4 2) rfl (by decide) (by decide) (by decide)).1

/-- Claim C6: a request whose model name does not resolve in the catalog
fails with UnknownModelError and its event trace is empty — no document is
opened, no schema read, mutation, regeneration, export or render occurs. -/
theorem c6_unknown_model_no_document (catalog : List ModelCatalogEntry)
    (req : ParameterRequest) (rid : String) (rok : Bool)
    (h : catalog.find? (fun e => e.name == req.model) = none) :
    (runPipeline catalog req rid rok).1 =
      .Failed .Received (.UnknownModelError req.model) ∧
    (runPipeline catalog req rid rok).2 = [] := by
  constructor <;> simp [runPipeline, h]

/-- Claim C6 witness: the spec's scenario `nonexistent-model`. -/
theorem c6_unknown_model_no_document_witness :
    (runPipeline theCatalog ⟨"nonexistent-model", []⟩ "r6" true).1 =
      .Failed .Received (.UnknownModelError "nonexistent-model") ∧
    (runPipeline theCatalog ⟨"nonexistent-model", []⟩ "r6" true).2 = [] :=
  c6_unknown_model_no_document theCatalog ⟨"nonexistent-model", []⟩ "r6" true rfl

/-- Claim C7: parameters omitted from the request keep the document's
default values in the applied assignment; applying an empty mapping yields
exactly the default assignment; and a request with an empty parameters
mapping delivers exactly the document's default geometry. -/
theorem c7_omitted_keep_defaults :
    (∀ (schema : List ParameterSpec) (requested : List (String × Value))
       (s : ParameterSpec), s ∈ schema → lookupValue requested s.name = none →
       (s.name, s.default_value) ∈ applyParams schema requested) ∧
    (∀ schema : List ParameterSpec, applyParams schema [] = defaultAssignment schema) ∧
    (∀ (catalog : List ModelCatalogEntry) (model rid : String) (rok : Bool)
       (entry : ModelCatalogEntry) (mesh : Mesh),
       catalog.find? (fun e => e.name == model) = some entry →
       entry.doc.recompute (defaultAssignment entry.doc.schema) = some mesh →
       mesh.vertices.isEmpty = false →
       ∃ a w, (runPipeline catalog ⟨model, []⟩ rid rok).1 = .Delivered a w ∧
         a.mesh = mesh) := by
  refine ⟨?_, applyParams_nil, ?_⟩
  · intro schema requested s hs hnone
    rw [applyParams]
    refine List.mem_map.mpr ⟨s, hs, ?_⟩
    simp [hnone]
  · intro catalog model rid rok entry mesh hfind hrec hne
    have hv : validateParams entry.doc.schema ([] : List (String × Value)) = none := rfl
    have hrec2 : entry.doc.recompute (applyParams entry.doc.schema []) = some mesh := by
      rw [applyParams_nil]
      exact hrec
    cases rok
    · exact ⟨⟨meshPath rid, none, mesh⟩, [renderWarning],
        by simp [runPipeline, hfind, hv, hrec2, hne], rfl⟩
    · exact ⟨⟨meshPath rid, some (imagePath rid), mesh⟩, [],
        by simp [runPipeline, hfind, hv, hrec2, hne], rfl⟩

/-- Claim C7 witness: `height` keeps its default 100 when the request sets
only `diameter_top`. -/
theorem c7_omitted_keep_defaults_witness :
    (("height", (100 : Int)) ∈
      applyParams potSchema [("diameter_top", Value.num 90)]) :=
  c7_omitted_keep_defaults.1 potSchema [("diameter_top", Value.num 90)]
    ⟨"height", 100, some 0, none⟩ (by decide) (by decide)

/-- Claim C8: the pipeline is deterministic in the request — two delivered
runs with the same (model, parameters), whatever their request identifiers
and render outcomes, carry the same mesh, hence the same vertex count and
face count. -/
theorem c8_idempotent_structure (catalog : List ModelCatalogEntry)
    (req : ParameterRequest) (rid1 rid2 : String) (rok1 rok2 : Bool)
    (a1 a2 : GeneratedArtifact) (w1 w2 : List String)
    (h1 : (runPipeline catalog req rid1 rok1).1 = .Delivered a1 w1)
    (h2 : (runPipeline catalog req rid2 rok2).1 = .Delivered a2 w2) :
    a1.mesh = a2.mesh ∧
    a1.mesh.vertices.length = a2.mesh.vertices.length ∧
    a1.mesh.faces.length = a2.mesh.faces.length := by
  obtain ⟨e1, m1, hf1, _, hr1, _, hm1⟩ := delivered_shape _ _ _ _ _ _ h1
  obtain ⟨e2, m2, hf2, _, hr2, _, hm2⟩ := delivered_shape _ _ _ _ _ _ h2
  rw [hf1] at hf2
  obtain rfl : e1 = e2 := by injection hf2
  rw [hr1] at hr2
  obtain rfl : m1 = m2 := by injection hr2
  have hm : a1.mesh = a2.mesh := by rw [hm1, hm2]
  exact ⟨hm, by rw [hm], by rw [hm]⟩

/-- Claim C8 witness: two runs of the notebook's request under different
request identifiers and render outcomes deliver structurally equal
meshes. -/
theorem c8_idempotent_structure_witness :
    (⟨meshPath "c8a", some (imagePath "c8a"), potMesh 60 80 100 4 2⟩ :
        GeneratedArtifact).mesh =
      (⟨meshPath "c8b", none, potMesh 60 80 100 4 2⟩ : GeneratedArtifact).mesh ∧
    (⟨meshPath "c8a", some (imagePath "c8a"), potMesh 60 80 100 4 2⟩ :
        GeneratedArtifact).mesh.vertices.length =
      (⟨meshPath "c8b", none, potMesh 60 80 100 4 2⟩ :
        GeneratedArtifact).mesh.vertices.length ∧
    (⟨meshPath "c8a", some (imagePath "c8a"), potMesh 60 80 100 4 2⟩ :
        GeneratedArtifact).mesh.faces.length =
      (⟨meshPath "c8b", none, potMesh 60 80 100 4 2⟩ :
        GeneratedArtifact).mesh.faces.length :=
  c8_idempotent_structure theCatalog potRequest "c8a" "c8b" true false _ _ _ _
    (by rfl) (by rfl)

/-- Claim C9: parameter mutation events do not touch the filesystem at all,
one request never changes the on-disk source catalog, and after any number
of requests — successful or failed — the source documents are byte-for-byte
unchanged. -/
theorem c9_source_catalog_immutable :
    (∀ (w : World) (n : String) (v : Int),
       applyEvent w (.mutateParameter n v) = w) ∧
    (∀ (catalog : List ModelCatalogEntry) (req : ParameterRequest)
       (rid : String) (rok : Bool) (w : World),
       ((runRequest catalog req rid rok w).2).sourceDocs = w.sourceDocs) ∧
    (∀ (catalog : List ModelCatalogEntry)
       (reqs : List (ParameterRequest × String × Bool)) (w : World),
       (runMany catalog reqs w).sourceDocs = w.sourceDocs) := by
  refine ⟨fun w n v => rfl, fun c r i ok w => foldl_applyEvent_sourceDocs _ w, ?_⟩
  intro catalog reqs
  induction reqs with
  | nil => intro w; rfl
  | cons t rest ih =>
    intro w
    rw [runMany, ih]
    exact foldl_applyEvent_sourceDocs _ w

/-- Claim C10: the Dockerfile's CMD launches `headless_service.sh`, which
starts an Xvfb framebuffer on display `:5` and exports `DISPLAY=:5` before
the Python service process starts; under that environment the renderer's
no-X-server failure branch (the OpenSCAD code -11 exit documented in the
script's comment) is not taken. -/
theorem c10_entrypoint_starts_xvfb_before_service :
    dockerfileCMD = ["bash", "headless_service.sh"] ∧
    (launchScript headless_service).serviceStart =
      some ([("DISPLAY", ":5")], [":5"]) ∧
    noXServerBranch [("DISPLAY", ":5")] [":5"] = false := by
  refine ⟨rfl, ?_, ?_⟩ <;> rfl

end Paramodel
